import Mathlib

/-!
Verification of the ISA atmosphere model (`src/environnement/atmosphere.py`).

The Python class `AtmosphereISA` exposes three pure evaluators
(`get_temperature`, `get_pressure`, `get_density`) driven by a layer
classifier `get_level`.  We embed them shallowly over the real numbers:
Python floats become `ℝ`, the fall-through of `get_level` above 71000 m
(which returns `None`) becomes `Option`, and the fact that indexing a
Python list with `None` raises becomes `Option.bind` propagating `none`.
-/

noncomputable section

namespace AtmosphereISA

/-- The constant table `_Tb` of base temperatures, shared (with identical
values) by the three evaluators in the source. -/
def _Tb : List ℝ := [288.15, 216.65, 216.65, 228.65, 270.65, 270.65]

/-- The lapse-rate table `_a` used by `get_temperature`. -/
def _a : List ℝ := [-0.0065, 0, 0.001, 0.0028, 0, -0.0028]

/-- The base-altitude table `_hb`. -/
def _hb : List ℝ := [0, 11000, 20000, 32000, 47000, 51000]

/-- The base-pressure table `_Pb` of `get_pressure`. -/
def _Pb : List ℝ := [101325.00, 22632.06, 5474.89, 868.02, 110.91, 66.94]

/-- The lapse-rate table `_Lb` used by `get_pressure` and `get_density`. -/
def _Lb : List ℝ := [0.0065, 0, -0.001, -0.0028, 0, 0.0028]

/-- The base-density table `_Db` of `get_density`. -/
def _Db : List ℝ := [1.225, 0.36391, 0.08803, 0.01322, 0.00143, 0.00086]

/-- `AtmosphereISA.get_level`: the layer classifier.  The Python function
falls through (returning `None`) for `height ≥ 71000`. -/
def get_level (height : ℝ) : Option ℕ :=
  if height < 11000 then some 0      -- Troposphere
  else if height < 20000 then some 1 -- Tropopause
  else if height < 32000 then some 2 -- Stratosphere
  else if height < 47000 then some 3 -- Stratopause
  else if height < 51000 then some 4 -- Mesosphere
  else if height < 71000 then some 5 -- Mesopause
  else none

/-- `AtmosphereISA.get_temperature`. -/
def get_temperature (height : ℝ) : Option ℝ := do
  let _level ← get_level height
  let tb ← _Tb[_level]?
  let a ← _a[_level]?
  let hb ← _hb[_level]?
  return tb + a * (height - hb)

/-- `AtmosphereISA.get_pressure`. -/
def get_pressure (height : ℝ) : Option ℝ := do
  let _level ← get_level height
  let pb ← _Pb[_level]?
  let tb ← _Tb[_level]?
  let lb ← _Lb[_level]?
  let hb ← _hb[_level]?
  if lb = 0 then
    return pb * Real.exp (-9.81 * 0.028964 * (height - hb) / (8.314 * tb))
  else
    return pb * (1 - lb * (height - hb) / tb) ^ (9.81 * 0.028964 / (8.314 * lb))

/-- `AtmosphereISA.get_density`. -/
def get_density (height : ℝ) : Option ℝ := do
  let _level ← get_level height
  let db ← _Db[_level]?
  let tb ← _Tb[_level]?
  let lb ← _Lb[_level]?
  let hb ← _hb[_level]?
  if lb = 0 then
    return db * Real.exp (-9.81 * 0.028964 * (height - hb) / (8.314 * tb))
  else
    return db * (1 - lb * (height - hb) / tb) ^ (9.81 * 0.028964 / (8.314 * lb) - 1)

/-! ### Spec-side constant accessors

The spec's data model is a table of six layer records; these accessors
read one field of one record. -/

/-- Base temperature of layer `l` (spec data model). -/
def Tb (l : ℕ) : ℝ := _Tb.getD l 0

/-- Signed lapse rate of layer `l` (spec data model: the value used in the
temperature formula). -/
def lapse (l : ℕ) : ℝ := _a.getD l 0

/-- Base altitude of layer `l` (spec data model). -/
def hb (l : ℕ) : ℝ := _hb.getD l 0

/-- Base pressure of layer `l` (spec data model). -/
def Pb (l : ℕ) : ℝ := _Pb.getD l 0

/-- Base density of layer `l` (spec data model). -/
def Db (l : ℕ) : ℝ := _Db.getD l 0

/-- The pressure-side lapse value of layer `l` (table `_Lb`). -/
def Lb (l : ℕ) : ℝ := _Lb.getD l 0

/-- The classifier's upper breakpoints (spec 4.1). -/
def breakpoints : List ℝ := [11000, 20000, 32000, 47000, 51000, 71000]

/-- The closed-form temperature formula of layer `l` (the body of
`get_temperature` after the layer lookup), total in the altitude. -/
def temperatureFormula (l : ℕ) (h : ℝ) : ℝ := Tb l + lapse l * (h - hb l)

/-- The closed-form pressure formula of layer `l` (the body of
`get_pressure` after the layer lookup), total in the altitude. -/
def pressureFormula (l : ℕ) (h : ℝ) : ℝ :=
  if Lb l = 0 then Pb l * Real.exp (-9.81 * 0.028964 * (h - hb l) / (8.314 * Tb l))
  else Pb l * (1 - Lb l * (h - hb l) / Tb l) ^ (9.81 * 0.028964 / (8.314 * Lb l))

/-- The closed-form density formula of layer `l` (the body of
`get_density` after the layer lookup), total in the altitude. -/
def densityFormula (l : ℕ) (h : ℝ) : ℝ :=
  if Lb l = 0 then Db l * Real.exp (-9.81 * 0.028964 * (h - hb l) / (8.314 * Tb l))
  else Db l * (1 - Lb l * (h - hb l) / Tb l) ^ (9.81 * 0.028964 / (8.314 * Lb l) - 1)

/-! ### Evaluation lemmas for the classifier -/

lemma get_level_eq0 (h : ℝ) (h0 : h < 11000) : get_level h = some 0 := by
  unfold get_level
  rw [if_pos h0]

lemma get_level_eq1 (h : ℝ) (h0 : 11000 ≤ h) (h1 : h < 20000) :
    get_level h = some 1 := by
  unfold get_level
  rw [if_neg (not_lt.2 h0), if_pos h1]

lemma get_level_eq2 (h : ℝ) (h0 : 20000 ≤ h) (h1 : h < 32000) :
    get_level h = some 2 := by
  unfold get_level
  rw [if_neg (not_lt.2 (by linarith)), if_neg (not_lt.2 h0), if_pos h1]

lemma get_level_eq3 (h : ℝ) (h0 : 32000 ≤ h) (h1 : h < 47000) :
    get_level h = some 3 := by
  unfold get_level
  rw [if_neg (not_lt.2 (by linarith)), if_neg (not_lt.2 (by linarith)),
    if_neg (not_lt.2 h0), if_pos h1]

lemma get_level_eq4 (h : ℝ) (h0 : 47000 ≤ h) (h1 : h < 51000) :
    get_level h = some 4 := by
  unfold get_level
  rw [if_neg (not_lt.2 (by linarith)), if_neg (not_lt.2 (by linarith)),
    if_neg (not_lt.2 (by linarith)), if_neg (not_lt.2 h0), if_pos h1]

lemma get_level_eq5 (h : ℝ) (h0 : 51000 ≤ h) (h1 : h < 71000) :
    get_level h = some 5 := by
  unfold get_level
  rw [if_neg (not_lt.2 (by linarith)), if_neg (not_lt.2 (by linarith)),
    if_neg (not_lt.2 (by linarith)), if_neg (not_lt.2 (by linarith)),
    if_neg (not_lt.2 h0), if_pos h1]

lemma get_level_none (h : ℝ) (h0 : 71000 ≤ h) : get_level h = none := by
  unfold get_level
  rw [if_neg (not_lt.2 (by linarith)), if_neg (not_lt.2 (by linarith)),
    if_neg (not_lt.2 (by linarith)), if_neg (not_lt.2 (by linarith)),
    if_neg (not_lt.2 (by linarith)), if_neg (not_lt.2 h0)]

/-- Inversion: the classifier's result determines the containing interval. -/
lemma get_level_inv (h : ℝ) (l : ℕ) (hl : get_level h = some l) :
    (l = 0 ∧ h < 11000) ∨
    (l = 1 ∧ 11000 ≤ h ∧ h < 20000) ∨
    (l = 2 ∧ 20000 ≤ h ∧ h < 32000) ∨
    (l = 3 ∧ 32000 ≤ h ∧ h < 47000) ∨
    (l = 4 ∧ 47000 ≤ h ∧ h < 51000) ∨
    (l = 5 ∧ 51000 ≤ h ∧ h < 71000) := by
  unfold get_level at hl
  split_ifs at hl with c1 c2 c3 c4 c5 c6
  · exact Or.inl ⟨(Option.some.inj hl).symm, c1⟩
  · exact Or.inr (Or.inl ⟨(Option.some.inj hl).symm, not_lt.1 c1, c2⟩)
  · exact Or.inr (Or.inr (Or.inl ⟨(Option.some.inj hl).symm, not_lt.1 c2, c3⟩))
  · exact Or.inr (Or.inr (Or.inr (Or.inl
      ⟨(Option.some.inj hl).symm, not_lt.1 c3, c4⟩)))
  · exact Or.inr (Or.inr (Or.inr (Or.inr (Or.inl
      ⟨(Option.some.inj hl).symm, not_lt.1 c4, c5⟩))))
  · exact Or.inr (Or.inr (Or.inr (Or.inr (Or.inr
      ⟨(Option.some.inj hl).symm, not_lt.1 c5, c6⟩))))

/-! ### Evaluation lemmas for the three evaluators, one per layer -/

lemma get_temperature_eq0 (h : ℝ) (h0 : h < 11000) :
    get_temperature h = some (288.15 + -0.0065 * (h - 0)) := by
  unfold get_temperature
  rw [get_level_eq0 h h0]
  rfl

lemma get_temperature_eq1 (h : ℝ) (h0 : 11000 ≤ h) (h1 : h < 20000) :
    get_temperature h = some (216.65 + 0 * (h - 11000)) := by
  unfold get_temperature
  rw [get_level_eq1 h h0 h1]
  rfl

lemma get_temperature_eq2 (h : ℝ) (h0 : 20000 ≤ h) (h1 : h < 32000) :
    get_temperature h = some (216.65 + 0.001 * (h - 20000)) := by
  unfold get_temperature
  rw [get_level_eq2 h h0 h1]
  rfl

lemma get_temperature_eq3 (h : ℝ) (h0 : 32000 ≤ h) (h1 : h < 47000) :
    get_temperature h = some (228.65 + 0.0028 * (h - 32000)) := by
  unfold get_temperature
  rw [get_level_eq3 h h0 h1]
  rfl

lemma get_temperature_eq4 (h : ℝ) (h0 : 47000 ≤ h) (h1 : h < 51000) :
    get_temperature h = some (270.65 + 0 * (h - 47000)) := by
  unfold get_temperature
  rw [get_level_eq4 h h0 h1]
  rfl

lemma get_temperature_eq5 (h : ℝ) (h0 : 51000 ≤ h) (h1 : h < 71000) :
    get_temperature h = some (270.65 + -0.0028 * (h - 51000)) := by
  unfold get_temperature
  rw [get_level_eq5 h h0 h1]
  rfl

lemma get_pressure_eq0 (h : ℝ) (h0 : h < 11000) :
    get_pressure h = some (101325.00 * (1 - 0.0065 * (h - 0) / 288.15) ^
      (9.81 * 0.028964 / (8.314 * 0.0065) : ℝ)) := by
  unfold get_pressure
  rw [get_level_eq0 h h0]
  show (if (0.0065 : ℝ) = 0 then _ else _) = _
  rw [if_neg (by norm_num : ¬((0.0065 : ℝ) = 0))]
  rfl

lemma get_pressure_eq1 (h : ℝ) (h0 : 11000 ≤ h) (h1 : h < 20000) :
    get_pressure h = some (22632.06 *
      Real.exp (-9.81 * 0.028964 * (h - 11000) / (8.314 * 216.65))) := by
  unfold get_pressure
  rw [get_level_eq1 h h0 h1]
  show (if (0 : ℝ) = 0 then _ else _) = _
  rw [if_pos rfl]
  rfl

lemma get_pressure_eq2 (h : ℝ) (h0 : 20000 ≤ h) (h1 : h < 32000) :
    get_pressure h = some (5474.89 * (1 - -0.001 * (h - 20000) / 216.65) ^
      (9.81 * 0.028964 / (8.314 * -0.001) : ℝ)) := by
  unfold get_pressure
  rw [get_level_eq2 h h0 h1]
  show (if (-0.001 : ℝ) = 0 then _ else _) = _
  rw [if_neg (by norm_num : ¬((-0.001 : ℝ) = 0))]
  rfl

lemma get_pressure_eq3 (h : ℝ) (h0 : 32000 ≤ h) (h1 : h < 47000) :
    get_pressure h = some (868.02 * (1 - -0.0028 * (h - 32000) / 228.65) ^
      (9.81 * 0.028964 / (8.314 * -0.0028) : ℝ)) := by
  unfold get_pressure
  rw [get_level_eq3 h h0 h1]
  show (if (-0.0028 : ℝ) = 0 then _ else _) = _
  rw [if_neg (by norm_num : ¬((-0.0028 : ℝ) = 0))]
  rfl

lemma get_pressure_eq4 (h : ℝ) (h0 : 47000 ≤ h) (h1 : h < 51000) :
    get_pressure h = some (110.91 *
      Real.exp (-9.81 * 0.028964 * (h - 47000) / (8.314 * 270.65))) := by
  unfold get_pressure
  rw [get_level_eq4 h h0 h1]
  show (if (0 : ℝ) = 0 then _ else _) = _
  rw [if_pos rfl]
  rfl

lemma get_pressure_eq5 (h : ℝ) (h0 : 51000 ≤ h) (h1 : h < 71000) :
    get_pressure h = some (66.94 * (1 - 0.0028 * (h - 51000) / 270.65) ^
      (9.81 * 0.028964 / (8.314 * 0.0028) : ℝ)) := by
  unfold get_pressure
  rw [get_level_eq5 h h0 h1]
  show (if (0.0028 : ℝ) = 0 then _ else _) = _
  rw [if_neg (by norm_num : ¬((0.0028 : ℝ) = 0))]
  rfl

lemma get_density_eq0 (h : ℝ) (h0 : h < 11000) :
    get_density h = some (1.225 * (1 - 0.0065 * (h - 0) / 288.15) ^
      (9.81 * 0.028964 / (8.314 * 0.0065) - 1 : ℝ)) := by
  unfold get_density
  rw [get_level_eq0 h h0]
  show (if (0.0065 : ℝ) = 0 then _ else _) = _
  rw [if_neg (by norm_num : ¬((0.0065 : ℝ) = 0))]
  rfl

lemma get_density_eq1 (h : ℝ) (h0 : 11000 ≤ h) (h1 : h < 20000) :
    get_density h = some (0.36391 *
      Real.exp (-9.81 * 0.028964 * (h - 11000) / (8.314 * 216.65))) := by
  unfold get_density
  rw [get_level_eq1 h h0 h1]
  show (if (0 : ℝ) = 0 then _ else _) = _
  rw [if_pos rfl]
  rfl

lemma get_density_eq2 (h : ℝ) (h0 : 20000 ≤ h) (h1 : h < 32000) :
    get_density h = some (0.08803 * (1 - -0.001 * (h - 20000) / 216.65) ^
      (9.81 * 0.028964 / (8.314 * -0.001) - 1 : ℝ)) := by
  unfold get_density
  rw [get_level_eq2 h h0 h1]
  show (if (-0.001 : ℝ) = 0 then _ else _) = _
  rw [if_neg (by norm_num : ¬((-0.001 : ℝ) = 0))]
  rfl

lemma get_density_eq3 (h : ℝ) (h0 : 32000 ≤ h) (h1 : h < 47000) :
    get_density h = some (0.01322 * (1 - -0.0028 * (h - 32000) / 228.65) ^
      (9.81 * 0.028964 / (8.314 * -0.0028) - 1 : ℝ)) := by
  unfold get_density
  rw [get_level_eq3 h h0 h1]
  show (if (-0.0028 : ℝ) = 0 then _ else _) = _
  rw [if_neg (by norm_num : ¬((-0.0028 : ℝ) = 0))]
  rfl

lemma get_density_eq4 (h : ℝ) (h0 : 47000 ≤ h) (h1 : h < 51000) :
    get_density h = some (0.00143 *
      Real.exp (-9.81 * 0.028964 * (h - 47000) / (8.314 * 270.65))) := by
  unfold get_density
  rw [get_level_eq4 h h0 h1]
  show (if (0 : ℝ) = 0 then _ else _) = _
  rw [if_pos rfl]
  rfl

lemma get_density_eq5 (h : ℝ) (h0 : 51000 ≤ h) (h1 : h < 71000) :
    get_density h = some (0.00086 * (1 - 0.0028 * (h - 51000) / 270.65) ^
      (9.81 * 0.028964 / (8.314 * 0.0028) - 1 : ℝ)) := by
  unfold get_density
  rw [get_level_eq5 h h0 h1]
  show (if (0.0028 : ℝ) = 0 then _ else _) = _
  rw [if_neg (by norm_num : ¬((0.0028 : ℝ) = 0))]
  rfl

/-! ### Per-layer constants, unfolded -/

lemma Tb_eq0 : Tb 0 = 288.15 := rfl
lemma Tb_eq1 : Tb 1 = 216.65 := rfl
lemma Tb_eq2 : Tb 2 = 216.65 := rfl
lemma Tb_eq3 : Tb 3 = 228.65 := rfl
lemma Tb_eq4 : Tb 4 = 270.65 := rfl
lemma Tb_eq5 : Tb 5 = 270.65 := rfl

lemma lapse_eq0 : lapse 0 = -0.0065 := rfl
lemma lapse_eq1 : lapse 1 = 0 := rfl
lemma lapse_eq2 : lapse 2 = 0.001 := rfl
lemma lapse_eq3 : lapse 3 = 0.0028 := rfl
lemma lapse_eq4 : lapse 4 = 0 := rfl
lemma lapse_eq5 : lapse 5 = -0.0028 := rfl

lemma hb_eq0 : hb 0 = 0 := rfl
lemma hb_eq1 : hb 1 = 11000 := rfl
lemma hb_eq2 : hb 2 = 20000 := rfl
lemma hb_eq3 : hb 3 = 32000 := rfl
lemma hb_eq4 : hb 4 = 47000 := rfl
lemma hb_eq5 : hb 5 = 51000 := rfl

lemma Pb_eq0 : Pb 0 = 101325.00 := rfl
lemma Pb_eq1 : Pb 1 = 22632.06 := rfl
lemma Pb_eq2 : Pb 2 = 5474.89 := rfl
lemma Pb_eq3 : Pb 3 = 868.02 := rfl
lemma Pb_eq4 : Pb 4 = 110.91 := rfl
lemma Pb_eq5 : Pb 5 = 66.94 := rfl

lemma Lb_eq0 : Lb 0 = 0.0065 := rfl
lemma Lb_eq1 : Lb 1 = 0 := rfl
lemma Lb_eq2 : Lb 2 = -0.001 := rfl
lemma Lb_eq3 : Lb 3 = -0.0028 := rfl
lemma Lb_eq4 : Lb 4 = 0 := rfl
lemma Lb_eq5 : Lb 5 = 0.0028 := rfl

lemma Db_eq0 : Db 0 = 1.225 := rfl
lemma Db_eq1 : Db 1 = 0.36391 := rfl
lemma Db_eq2 : Db 2 = 0.08803 := rfl
lemma Db_eq3 : Db 3 = 0.01322 := rfl
lemma Db_eq4 : Db 4 = 0.00143 := rfl
lemma Db_eq5 : Db 5 = 0.00086 := rfl

lemma bp_eq0 : breakpoints.getD 0 0 = 11000 := rfl
lemma bp_eq1 : breakpoints.getD 1 0 = 20000 := rfl
lemma bp_eq2 : breakpoints.getD 2 0 = 32000 := rfl
lemma bp_eq3 : breakpoints.getD 3 0 = 47000 := rfl
lemma bp_eq4 : breakpoints.getD 4 0 = 51000 := rfl
lemma bp_eq5 : breakpoints.getD 5 0 = 71000 := rfl

/-- Below the ceiling the classifier always yields a level. -/
lemma get_level_isSome (h : ℝ) (h71 : h < 71000) : ∃ l, get_level h = some l := by
  rcases lt_or_le h 11000 with c | c1
  · exact ⟨0, get_level_eq0 h c⟩
  rcases lt_or_le h 20000 with c | c2
  · exact ⟨1, get_level_eq1 h c1 c⟩
  rcases lt_or_le h 32000 with c | c3
  · exact ⟨2, get_level_eq2 h c2 c⟩
  rcases lt_or_le h 47000 with c | c4
  · exact ⟨3, get_level_eq3 h c3 c⟩
  rcases lt_or_le h 51000 with c | c5
  · exact ⟨4, get_level_eq4 h c4 c⟩
  exact ⟨5, get_level_eq5 h c5 h71⟩

/-! ### Behaviour above the model's ceiling -/

lemma get_temperature_none (h : ℝ) (h0 : 71000 ≤ h) :
    get_temperature h = none := by
  unfold get_temperature
  rw [get_level_none h h0]
  rfl

lemma get_pressure_none (h : ℝ) (h0 : 71000 ≤ h) :
    get_pressure h = none := by
  unfold get_pressure
  rw [get_level_none h h0]
  rfl

lemma get_density_none (h : ℝ) (h0 : 71000 ≤ h) :
    get_density h = none := by
  unfold get_density
  rw [get_level_none h h0]
  rfl

/-! ### Claims -/

/-- Claim C3: for every altitude below 71000 m, `get_level` returns the unique
index `i ≤ 5` with `hb i ≤ h < breakpoints[i]` (for `h ≥ 0`), and every
negative altitude is classified as index 0. -/
theorem claim_C3 :
    (∀ h : ℝ, 0 ≤ h → h < 71000 → ∃ i : ℕ,
        get_level h = some i ∧ i ≤ 5 ∧ hb i ≤ h ∧ h < breakpoints.getD i 0 ∧
        ∀ j : ℕ, j ≤ 5 → hb j ≤ h → h < breakpoints.getD j 0 → j = i) ∧
    (∀ h : ℝ, h < 0 → get_level h = some 0) := by
  constructor
  · intro h h0 h71
    rcases lt_or_le h 11000 with c1 | c1
    · refine ⟨0, get_level_eq0 h c1, by norm_num, ?_, ?_, ?_⟩
      · rw [hb_eq0]; exact h0
      · rw [bp_eq0]; exact c1
      · intro j hj hjb hjp
        interval_cases j <;>
          first
            | rfl
            | (exfalso
               simp only [hb_eq0, hb_eq1, hb_eq2, hb_eq3, hb_eq4, hb_eq5,
                 bp_eq0, bp_eq1, bp_eq2, bp_eq3, bp_eq4, bp_eq5] at hjb hjp
               linarith)
    rcases lt_or_le h 20000 with c2 | c2
    · refine ⟨1, get_level_eq1 h c1 c2, by norm_num, ?_, ?_, ?_⟩
      · rw [hb_eq1]; exact c1
      · rw [bp_eq1]; exact c2
      · intro j hj hjb hjp
        interval_cases j <;>
          first
            | rfl
            | (exfalso
               simp only [hb_eq0, hb_eq1, hb_eq2, hb_eq3, hb_eq4, hb_eq5,
                 bp_eq0, bp_eq1, bp_eq2, bp_eq3, bp_eq4, bp_eq5] at hjb hjp
               linarith)
    rcases lt_or_le h 32000 with c3 | c3
    · refine ⟨2, get_level_eq2 h c2 c3, by norm_num, ?_, ?_, ?_⟩
      · rw [hb_eq2]; exact c2
      · rw [bp_eq2]; exact c3
      · intro j hj hjb hjp
        interval_cases j <;>
          first
            | rfl
            | (exfalso
               simp only [hb_eq0, hb_eq1, hb_eq2, hb_eq3, hb_eq4, hb_eq5,
                 bp_eq0, bp_eq1, bp_eq2, bp_eq3, bp_eq4, bp_eq5] at hjb hjp
               linarith)
    rcases lt_or_le h 47000 with c4 | c4
    · refine ⟨3, get_level_eq3 h c3 c4, by norm_num, ?_, ?_, ?_⟩
      · rw [hb_eq3]; exact c3
      · rw [bp_eq3]; exact c4
      · intro j hj hjb hjp
        interval_cases j <;>
          first
            | rfl
            | (exfalso
               simp only [hb_eq0, hb_eq1, hb_eq2, hb_eq3, hb_eq4, hb_eq5,
                 bp_eq0, bp_eq1, bp_eq2, bp_eq3, bp_eq4, bp_eq5] at hjb hjp
               linarith)
    rcases lt_or_le h 51000 with c5 | c5
    · refine ⟨4, get_level_eq4 h c4 c5, by norm_num, ?_, ?_, ?_⟩
      · rw [hb_eq4]; exact c4
      · rw [bp_eq4]; exact c5
      · intro j hj hjb hjp
        interval_cases j <;>
          first
            | rfl
            | (exfalso
               simp only [hb_eq0, hb_eq1, hb_eq2, hb_eq3, hb_eq4, hb_eq5,
                 bp_eq0, bp_eq1, bp_eq2, bp_eq3, bp_eq4, bp_eq5] at hjb hjp
               linarith)
    · refine ⟨5, get_level_eq5 h c5 h71, by norm_num, ?_, ?_, ?_⟩
      · rw [hb_eq5]; exact c5
      · rw [bp_eq5]; exact h71
      · intro j hj hjb hjp
        interval_cases j <;>
          first
            | rfl
            | (exfalso
               simp only [hb_eq0, hb_eq1, hb_eq2, hb_eq3, hb_eq4, hb_eq5,
                 bp_eq0, bp_eq1, bp_eq2, bp_eq3, bp_eq4, bp_eq5] at hjb hjp
               linarith)
  · intro h hneg
    exact get_level_eq0 h (by linarith)

/-- Claim C3, instantiated at the concrete altitudes 25000 m and -1 m. -/
theorem claim_C3_witness :
    ((0 : ℝ) ≤ 25000 ∧ (25000 : ℝ) < 71000 ∧
      ∃ i : ℕ, get_level (25000 : ℝ) = some i ∧ i ≤ 5 ∧ hb i ≤ 25000 ∧
        (25000 : ℝ) < breakpoints.getD i 0 ∧
        ∀ j : ℕ, j ≤ 5 → hb j ≤ (25000 : ℝ) →
          (25000 : ℝ) < breakpoints.getD j 0 → j = i) ∧
    ((-1 : ℝ) < 0 ∧ get_level (-1 : ℝ) = some 0) :=
  ⟨⟨by norm_num, by norm_num, claim_C3.1 25000 (by norm_num) (by norm_num)⟩,
   ⟨by norm_num, claim_C3.2 (-1) (by norm_num)⟩⟩

/-- Claim C5: for every altitude in `[0, 71000)`, `get_temperature` computes
`T_b + lapse_rate * (h - h_b)` with the classified layer's constants. -/
theorem claim_C5 (h : ℝ) (h0 : 0 ≤ h) (h71 : h < 71000) :
    ∃ l : ℕ, get_level h = some l ∧
      get_temperature h = some (Tb l + lapse l * (h - hb l)) := by
  rcases lt_or_le h 11000 with c1 | c1
  · exact ⟨0, get_level_eq0 h c1,
      by rw [get_temperature_eq0 h c1, Tb_eq0, lapse_eq0, hb_eq0]⟩
  rcases lt_or_le h 20000 with c2 | c2
  · exact ⟨1, get_level_eq1 h c1 c2,
      by rw [get_temperature_eq1 h c1 c2, Tb_eq1, lapse_eq1, hb_eq1]⟩
  rcases lt_or_le h 32000 with c3 | c3
  · exact ⟨2, get_level_eq2 h c2 c3,
      by rw [get_temperature_eq2 h c2 c3, Tb_eq2, lapse_eq2, hb_eq2]⟩
  rcases lt_or_le h 47000 with c4 | c4
  · exact ⟨3, get_level_eq3 h c3 c4,
      by rw [get_temperature_eq3 h c3 c4, Tb_eq3, lapse_eq3, hb_eq3]⟩
  rcases lt_or_le h 51000 with c5 | c5
  · exact ⟨4, get_level_eq4 h c4 c5,
      by rw [get_temperature_eq4 h c4 c5, Tb_eq4, lapse_eq4, hb_eq4]⟩
  · exact ⟨5, get_level_eq5 h c5 h71,
      by rw [get_temperature_eq5 h c5 h71, Tb_eq5, lapse_eq5, hb_eq5]⟩

/-- Claim C5, instantiated at 40000 m. -/
theorem claim_C5_witness :
    (0 : ℝ) ≤ 40000 ∧ (40000 : ℝ) < 71000 ∧
      ∃ l : ℕ, get_level (40000 : ℝ) = some l ∧
        get_temperature (40000 : ℝ) = some (Tb l + lapse l * (40000 - hb l)) :=
  ⟨by norm_num, by norm_num, claim_C5 40000 (by norm_num) (by norm_num)⟩

/-- Claim C6: on the isothermal tropopause `[11000, 20000)` the pressure is
`22632.06 * exp(-9.81*0.028964*(h-11000)/(8.314*216.65))`. -/
theorem claim_C6 (h : ℝ) (h0 : 11000 ≤ h) (h1 : h < 20000) :
    get_pressure h = some (22632.06 *
      Real.exp (-9.81 * 0.028964 * (h - 11000) / (8.314 * 216.65))) :=
  get_pressure_eq1 h h0 h1

/-- Claim C6, instantiated at 15000 m. -/
theorem claim_C6_witness :
    (11000 : ℝ) ≤ 15000 ∧ (15000 : ℝ) < 20000 ∧
      get_pressure (15000 : ℝ) = some (22632.06 *
        Real.exp (-9.81 * 0.028964 * ((15000 : ℝ) - 11000) / (8.314 * 216.65))) :=
  ⟨by norm_num, by norm_num, claim_C6 15000 (by norm_num) (by norm_num)⟩

/-- Claim C4: the evaluators reproduce the ISA reference values at 0 m,
11000 m and 20000 m within `1e-6`. -/
theorem claim_C4 :
    (∃ t : ℝ, get_temperature 0 = some t ∧ |t - 288.15| ≤ 1e-6) ∧
    (∃ p : ℝ, get_pressure 0 = some p ∧ |p - 101325.00| ≤ 1e-6) ∧
    (∃ d : ℝ, get_density 0 = some d ∧ |d - 1.225| ≤ 1e-6) ∧
    (∃ t : ℝ, get_temperature 11000 = some t ∧ |t - 216.65| ≤ 1e-6) ∧
    (∃ p : ℝ, get_pressure 11000 = some p ∧ |p - 22632.06| ≤ 1e-6) ∧
    (∃ d : ℝ, get_density 20000 = some d ∧ |d - 0.08803| ≤ 1e-6) := by
  refine ⟨⟨_, get_temperature_eq0 0 (by norm_num), by norm_num⟩,
    ⟨_, get_pressure_eq0 0 (by norm_num), ?_⟩,
    ⟨_, get_density_eq0 0 (by norm_num), ?_⟩,
    ⟨_, get_temperature_eq1 11000 le_rfl (by norm_num), by norm_num⟩,
    ⟨_, get_pressure_eq1 11000 le_rfl (by norm_num), ?_⟩,
    ⟨_, get_density_eq2 20000 le_rfl (by norm_num), ?_⟩⟩
  · rw [show (1 - 0.0065 * ((0 : ℝ) - 0) / 288.15) = 1 by norm_num, Real.one_rpow]
    norm_num
  · rw [show (1 - 0.0065 * ((0 : ℝ) - 0) / 288.15) = 1 by norm_num, Real.one_rpow]
    norm_num
  · rw [show (-9.81 * 0.028964 * ((11000 : ℝ) - 11000) / (8.314 * 216.65)) = 0
      by norm_num, Real.exp_zero]
    norm_num
  · rw [show (1 - -0.001 * ((20000 : ℝ) - 20000) / 216.65) = 1 by norm_num,
      Real.one_rpow]
    norm_num

/-- Claim C10: at and above 71000 m the classifier yields no level and all
three evaluators yield no numeric value (the embedded counterpart of the
Python `None`/`TypeError` fall-through). -/
theorem claim_C10 (h : ℝ) (h71 : 71000 ≤ h) :
    get_level h = none ∧ get_temperature h = none ∧
      get_pressure h = none ∧ get_density h = none :=
  ⟨get_level_none h h71, get_temperature_none h h71,
   get_pressure_none h h71, get_density_none h h71⟩

/-- Claim C10, instantiated at 80000 m. -/
theorem claim_C10_witness :
    (71000 : ℝ) ≤ 80000 ∧
      (get_level (80000 : ℝ) = none ∧ get_temperature (80000 : ℝ) = none ∧
       get_pressure (80000 : ℝ) = none ∧ get_density (80000 : ℝ) = none) :=
  ⟨by norm_num, claim_C10 80000 (by norm_num)⟩

/-- Claim C2: the code, evaluated at the spec's failing inputs, yields no
value at all (`none`) instead of signalling a dedicated out-of-range error:
there is no `OutOfRangeAltitude` condition anywhere in the model. -/
theorem claim_C2_code_eval :
    get_level (71000 : ℝ) = none ∧ get_temperature (71000 : ℝ) = none ∧
      get_pressure (80000 : ℝ) = none ∧ get_density (80000 : ℝ) = none :=
  ⟨get_level_none 71000 (by norm_num), get_temperature_none 71000 (by norm_num),
   get_pressure_none 80000 (by norm_num), get_density_none 80000 (by norm_num)⟩

/-- Claim C9: the lapse table `_Lb` of `get_pressure`/`get_density` is the
elementwise negation of the table `_a` of `get_temperature`, and hence in a
non-isothermal layer the base of the power equals `T(h)/T_b`. -/
theorem claim_C9 :
    _Lb = _a.map (fun x => -x) ∧
    ∀ (h : ℝ) (l : ℕ) (t : ℝ), 0 ≤ h → h < 71000 → get_level h = some l →
      get_temperature h = some t → lapse l ≠ 0 →
      1 - Lb l * (h - hb l) / Tb l = t / Tb l := by
  constructor
  · simp only [_Lb, _a, List.map]
    norm_num
  · intro h l t h0 h71 hl ht hlap
    rcases get_level_inv h l hl with ⟨rfl, b⟩ | ⟨rfl, b, b'⟩ | ⟨rfl, b, b'⟩ |
      ⟨rfl, b, b'⟩ | ⟨rfl, b, b'⟩ | ⟨rfl, b, b'⟩
    · rw [get_temperature_eq0 h b] at ht
      rw [Lb_eq0, hb_eq0, Tb_eq0, ← Option.some.inj ht]
      field_simp
      ring
    · rw [lapse_eq1] at hlap; exact absurd rfl hlap
    · rw [get_temperature_eq2 h b b'] at ht
      rw [Lb_eq2, hb_eq2, Tb_eq2, ← Option.some.inj ht]
      field_simp
    · rw [get_temperature_eq3 h b b'] at ht
      rw [Lb_eq3, hb_eq3, Tb_eq3, ← Option.some.inj ht]
      field_simp
    · rw [lapse_eq4] at hlap; exact absurd rfl hlap
    · rw [get_temperature_eq5 h b b'] at ht
      rw [Lb_eq5, hb_eq5, Tb_eq5, ← Option.some.inj ht]
      field_simp
      ring

/-- Claim C9, instantiated in the stratosphere at 25000 m. -/
theorem claim_C9_witness :
    _Lb = _a.map (fun x => -x) ∧
    (0 : ℝ) ≤ 25000 ∧ (25000 : ℝ) < 71000 ∧ lapse 2 ≠ 0 ∧
      1 - Lb 2 * ((25000 : ℝ) - hb 2) / Tb 2 =
        (216.65 + 0.001 * ((25000 : ℝ) - 20000)) / Tb 2 :=
  ⟨claim_C9.1, by norm_num, by norm_num, by rw [lapse_eq2]; norm_num,
   claim_C9.2 25000 2 _ (by norm_num) (by norm_num)
     (get_level_eq2 25000 (by norm_num) (by norm_num))
     (get_temperature_eq2 25000 (by norm_num) (by norm_num))
     (by rw [lapse_eq2]; norm_num)⟩

/-- Claim C1 (amended): in a non-isothermal layer the polytropic formulas
hold with `L = -lapse l`, the elementwise negation of the lapse rate used in
the temperature formula (the code keeps a second, sign-flipped table `_Lb`
for the barometric exponent). -/
theorem claim_C1_amended (h : ℝ) (l : ℕ) (h0 : 0 ≤ h) (h71 : h < 71000)
    (hl : get_level h = some l) (hiso : lapse l ≠ 0) :
    get_pressure h = some (Pb l * (1 - -lapse l * (h - hb l) / Tb l) ^
      (9.81 * 0.028964 / (8.314 * -lapse l) : ℝ)) ∧
    get_density h = some (Db l * (1 - -lapse l * (h - hb l) / Tb l) ^
      (9.81 * 0.028964 / (8.314 * -lapse l) - 1 : ℝ)) := by
  rcases get_level_inv h l hl with ⟨rfl, b⟩ | ⟨rfl, b, b'⟩ | ⟨rfl, b, b'⟩ |
    ⟨rfl, b, b'⟩ | ⟨rfl, b, b'⟩ | ⟨rfl, b, b'⟩
  · have e : -lapse 0 = (0.0065 : ℝ) := by rw [lapse_eq0]; norm_num
    rw [e, Pb_eq0, Db_eq0, Tb_eq0, hb_eq0]
    exact ⟨get_pressure_eq0 h b, get_density_eq0 h b⟩
  · rw [lapse_eq1] at hiso; exact absurd rfl hiso
  · have e : -lapse 2 = (-0.001 : ℝ) := by rw [lapse_eq2]
    rw [e, Pb_eq2, Db_eq2, Tb_eq2, hb_eq2]
    exact ⟨get_pressure_eq2 h b b', get_density_eq2 h b b'⟩
  · have e : -lapse 3 = (-0.0028 : ℝ) := by rw [lapse_eq3]
    rw [e, Pb_eq3, Db_eq3, Tb_eq3, hb_eq3]
    exact ⟨get_pressure_eq3 h b b', get_density_eq3 h b b'⟩
  · rw [lapse_eq4] at hiso; exact absurd rfl hiso
  · have e : -lapse 5 = (0.0028 : ℝ) := by rw [lapse_eq5]; norm_num
    rw [e, Pb_eq5, Db_eq5, Tb_eq5, hb_eq5]
    exact ⟨get_pressure_eq5 h b b', get_density_eq5 h b b'⟩

/-- Claim C1 fails as stated: at 5000 m the pressure computed by the code
differs from `P_b * (1 - L*(h-h_b)/T_b) ^ (g*M/(R*L))` taken with `L` equal
to the lapse rate of the temperature formula (`lapse 0 = -0.0065`). -/
theorem claim_C1_counterexample :
    get_pressure 5000 ≠ some (Pb 0 * (1 - lapse 0 * ((5000 : ℝ) - hb 0) / Tb 0) ^
      (9.81 * 0.028964 / (8.314 * lapse 0) : ℝ)) := by
  intro heq
  rw [get_pressure_eq0 5000 (by norm_num), lapse_eq0, Pb_eq0, Tb_eq0, hb_eq0] at heq
  have h2 := Option.some.inj heq
  have hA : (0 : ℝ) < 1 - 0.0065 * ((5000 : ℝ) - 0) / 288.15 := by norm_num
  have hB : (0 : ℝ) < 1 - -0.0065 * ((5000 : ℝ) - 0) / 288.15 := by norm_num
  have hk : (0 : ℝ) < 9.81 * 0.028964 / (8.314 * 0.0065) := by norm_num
  have hAB : (1 - 0.0065 * ((5000 : ℝ) - 0) / 288.15) *
      (1 - -0.0065 * ((5000 : ℝ) - 0) / 288.15) < 1 := by norm_num
  have hexp : (9.81 * 0.028964 / (8.314 * -0.0065) : ℝ)
      = -(9.81 * 0.028964 / (8.314 * 0.0065)) := by norm_num
  rw [hexp] at h2
  have h3 : (1 - 0.0065 * ((5000 : ℝ) - 0) / 288.15) ^
        (9.81 * 0.028964 / (8.314 * 0.0065) : ℝ)
      = (1 - -0.0065 * ((5000 : ℝ) - 0) / 288.15) ^
        (-(9.81 * 0.028964 / (8.314 * 0.0065)) : ℝ) :=
    mul_left_cancel₀ (by norm_num : (101325.00 : ℝ) ≠ 0) h2
  have h4 : ((1 - 0.0065 * ((5000 : ℝ) - 0) / 288.15) *
        (1 - -0.0065 * ((5000 : ℝ) - 0) / 288.15)) ^
        (9.81 * 0.028964 / (8.314 * 0.0065) : ℝ) < 1 :=
    Real.rpow_lt_one (mul_pos hA hB).le hAB hk
  have h5 : ((1 - 0.0065 * ((5000 : ℝ) - 0) / 288.15) *
        (1 - -0.0065 * ((5000 : ℝ) - 0) / 288.15)) ^
        (9.81 * 0.028964 / (8.314 * 0.0065) : ℝ)
      = (1 - 0.0065 * ((5000 : ℝ) - 0) / 288.15) ^
          (9.81 * 0.028964 / (8.314 * 0.0065) : ℝ) *
        (1 - -0.0065 * ((5000 : ℝ) - 0) / 288.15) ^
          (9.81 * 0.028964 / (8.314 * 0.0065) : ℝ) :=
    Real.mul_rpow hA.le hB.le
  have h6 : (1 - -0.0065 * ((5000 : ℝ) - 0) / 288.15) ^
        (-(9.81 * 0.028964 / (8.314 * 0.0065)) : ℝ) *
      (1 - -0.0065 * ((5000 : ℝ) - 0) / 288.15) ^
        (9.81 * 0.028964 / (8.314 * 0.0065) : ℝ) = 1 := by
    rw [← Real.rpow_add hB,
      show (-(9.81 * 0.028964 / (8.314 * 0.0065)) +
        9.81 * 0.028964 / (8.314 * 0.0065) : ℝ) = 0 by ring, Real.rpow_zero]
  rw [h5, h3, h6] at h4
  exact absurd h4 (lt_irrefl 1)

/-- Claim C1 (amended), instantiated at 5000 m. -/
theorem claim_C1_witness :
    (0 : ℝ) ≤ 5000 ∧ (5000 : ℝ) < 71000 ∧ get_level (5000 : ℝ) = some 0 ∧
      lapse 0 ≠ 0 ∧
      (get_pressure 5000 = some (Pb 0 *
          (1 - -lapse 0 * ((5000 : ℝ) - hb 0) / Tb 0) ^
          (9.81 * 0.028964 / (8.314 * -lapse 0) : ℝ)) ∧
       get_density 5000 = some (Db 0 *
          (1 - -lapse 0 * ((5000 : ℝ) - hb 0) / Tb 0) ^
          (9.81 * 0.028964 / (8.314 * -lapse 0) - 1 : ℝ))) :=
  ⟨by norm_num, by norm_num, get_level_eq0 5000 (by norm_num),
   by rw [lapse_eq0]; norm_num,
   claim_C1_amended 5000 0 (by norm_num) (by norm_num)
     (get_level_eq0 5000 (by norm_num)) (by rw [lapse_eq0]; norm_num)⟩

/-! ### Rational-exponent bounds used for the seam discontinuities -/

/-- Comparison of a real power with exponent `184/35` against a bound, via
35th powers. -/
lemma rpow_184_35_lt {x c : ℝ} (hx0 : 0 < x) (hc0 : 0 < c)
    (hpow : x ^ (184 : ℕ) < c ^ (35 : ℕ)) : x ^ ((184 : ℝ) / 35) < c := by
  by_contra hle
  push_neg at hle
  have h1 : c ^ (35 : ℕ) ≤ (x ^ ((184 : ℝ) / 35)) ^ (35 : ℕ) :=
    pow_le_pow_left hc0.le hle 35
  have h2 : (x ^ ((184 : ℝ) / 35)) ^ (35 : ℕ) = x ^ (184 : ℕ) := by
    rw [← Real.rpow_natCast (x ^ ((184 : ℝ) / 35)) 35, ← Real.rpow_mul hx0.le,
      show ((184 : ℝ) / 35 * ((35 : ℕ) : ℝ)) = ((184 : ℕ) : ℝ) by push_cast; norm_num,
      Real.rpow_natCast]
  rw [h2] at h1
  linarith

/-- The troposphere branch of `pressureFormula`, unfolded. -/
lemma pressureFormula_eq0 (h : ℝ) :
    pressureFormula 0 h = 101325.00 * (1 - 0.0065 * (h - 0) / 288.15) ^
      (9.81 * 0.028964 / (8.314 * 0.0065) : ℝ) := by
  unfold pressureFormula
  rw [Lb_eq0, Pb_eq0, Tb_eq0, hb_eq0,
    if_neg (by norm_num : ¬((0.0065 : ℝ) = 0))]

/-- Claim C7 fails as stated: at the 11000 m seam, the troposphere formula
evaluated at 11000 differs from the evaluator's value there (22632.06 Pa)
by more than the spec's floating-point tolerance `1e-6` (the gap is in fact
about 12 Pa). -/
theorem claim_C7_counterexample :
    ∃ p : ℝ, get_pressure 11000 = some p ∧ 1e-6 < |pressureFormula 0 11000 - p| := by
  refine ⟨_, get_pressure_eq1 11000 le_rfl (by norm_num), ?_⟩
  rw [show (-9.81 * 0.028964 * ((11000 : ℝ) - 11000) / (8.314 * 216.65)) = 0
      by norm_num, Real.exp_zero, mul_one, pressureFormula_eq0,
    show (1 - 0.0065 * ((11000 : ℝ) - 0) / 288.15) = (4333 / 5763 : ℝ) by norm_num]
  have hle : ((4333 / 5763 : ℝ)) ^ (9.81 * 0.028964 / (8.314 * 0.0065) : ℝ)
      ≤ ((4333 / 5763 : ℝ)) ^ ((184 : ℝ) / 35) :=
    Real.rpow_le_rpow_of_exponent_ge (by norm_num) (by norm_num) (by norm_num)
  have hlt : ((4333 / 5763 : ℝ)) ^ ((184 : ℝ) / 35) < 22632059999 / 101325000000 := by
    apply rpow_184_35_lt (by norm_num) (by norm_num)
    rw [div_pow, div_pow, div_lt_div_iff (by positivity) (by positivity)]
    exact_mod_cast (by decide :
      (4333 : ℕ) ^ 184 * 101325000000 ^ 35 < 22632059999 ^ 35 * 5763 ^ 184)
  have hP : 101325.00 * ((4333 / 5763 : ℝ)) ^
      (9.81 * 0.028964 / (8.314 * 0.0065) : ℝ) < 22632.059999 := by
    calc 101325.00 * ((4333 / 5763 : ℝ)) ^
        (9.81 * 0.028964 / (8.314 * 0.0065) : ℝ)
        ≤ 101325.00 * ((4333 / 5763 : ℝ)) ^ ((184 : ℝ) / 35) :=
          mul_le_mul_of_nonneg_left hle (by norm_num)
      _ < 101325.00 * ((22632059999 : ℝ) / 101325000000) :=
          mul_lt_mul_of_pos_left hlt (by norm_num)
      _ = 22632.059999 := by norm_num
  rw [abs_of_neg (by linarith)]
  linarith

/-- Claim C7 (amended): the temperature evaluator is exactly continuous at
every layer seam — the lower layer's formula at the seam equals the
evaluator's value there; for pressure and density the tabulated base values
make the seams jump (see the counterexample). -/
theorem claim_C7_amended :
    (∃ t, get_temperature (11000 : ℝ) = some t ∧ temperatureFormula 0 11000 = t) ∧
    (∃ t, get_temperature (20000 : ℝ) = some t ∧ temperatureFormula 1 20000 = t) ∧
    (∃ t, get_temperature (32000 : ℝ) = some t ∧ temperatureFormula 2 32000 = t) ∧
    (∃ t, get_temperature (47000 : ℝ) = some t ∧ temperatureFormula 3 47000 = t) ∧
    (∃ t, get_temperature (51000 : ℝ) = some t ∧ temperatureFormula 4 51000 = t) := by
  refine ⟨⟨_, get_temperature_eq1 11000 le_rfl (by norm_num), ?_⟩,
    ⟨_, get_temperature_eq2 20000 le_rfl (by norm_num), ?_⟩,
    ⟨_, get_temperature_eq3 32000 le_rfl (by norm_num), ?_⟩,
    ⟨_, get_temperature_eq4 47000 le_rfl (by norm_num), ?_⟩,
    ⟨_, get_temperature_eq5 51000 le_rfl (by norm_num), ?_⟩⟩
  · unfold temperatureFormula; rw [Tb_eq0, lapse_eq0, hb_eq0]; norm_num
  · unfold temperatureFormula; rw [Tb_eq1, lapse_eq1, hb_eq1]; norm_num
  · unfold temperatureFormula; rw [Tb_eq2, lapse_eq2, hb_eq2]; norm_num
  · unfold temperatureFormula; rw [Tb_eq3, lapse_eq3, hb_eq3]; norm_num
  · unfold temperatureFormula; rw [Tb_eq4, lapse_eq4, hb_eq4]; norm_num

/-- Claim C8 fails as stated: pressure is not strictly decreasing across
the 11000 m seam — `get_pressure 10999 < get_pressure 11000`, because the
tabulated tropopause base pressure 22632.06 exceeds what the troposphere
formula yields just below the seam. -/
theorem claim_C8_counterexample :
    ∃ p1 p2 : ℝ, get_pressure (10999 : ℝ) = some p1 ∧
      get_pressure (11000 : ℝ) = some p2 ∧ p1 < p2 := by
  refine ⟨_, _, get_pressure_eq0 10999 (by norm_num),
    get_pressure_eq1 11000 le_rfl (by norm_num), ?_⟩
  rw [show (-9.81 * 0.028964 * ((11000 : ℝ) - 11000) / (8.314 * 216.65)) = 0
      by norm_num, Real.exp_zero, mul_one,
    show (1 - 0.0065 * ((10999 : ℝ) - 0) / 288.15) = (2166565 / 2881500 : ℝ)
      by norm_num]
  have hle : ((2166565 / 2881500 : ℝ)) ^ (9.81 * 0.028964 / (8.314 * 0.0065) : ℝ)
      ≤ ((2166565 / 2881500 : ℝ)) ^ ((184 : ℝ) / 35) :=
    Real.rpow_le_rpow_of_exponent_ge (by norm_num) (by norm_num) (by norm_num)
  have hlt : ((2166565 / 2881500 : ℝ)) ^ ((184 : ℝ) / 35) < 2263206 / 10132500 := by
    apply rpow_184_35_lt (by norm_num) (by norm_num)
    rw [div_pow, div_pow, div_lt_div_iff (by positivity) (by positivity)]
    exact_mod_cast (by decide :
      (2166565 : ℕ) ^ 184 * 10132500 ^ 35 < 2263206 ^ 35 * 2881500 ^ 184)
  calc 101325.00 * ((2166565 / 2881500 : ℝ)) ^
      (9.81 * 0.028964 / (8.314 * 0.0065) : ℝ)
      ≤ 101325.00 * ((2166565 / 2881500 : ℝ)) ^ ((184 : ℝ) / 35) :=
        mul_le_mul_of_nonneg_left hle (by norm_num)
    _ < 101325.00 * ((2263206 : ℝ) / 10132500) :=
        mul_lt_mul_of_pos_left hlt (by norm_num)
    _ = 22632.06 := by norm_num

/-- Claim C8 (amended): pressure and density are strictly decreasing in
altitude within each layer — whenever two altitudes of `[0, 71000)` receive
the same level, the higher one gets strictly smaller pressure and density. -/
theorem claim_C8_amended (h1 h2 : ℝ) (h1nn : 0 ≤ h1) (h12 : h1 < h2)
    (h2lt : h2 < 71000) (hsame : get_level h1 = get_level h2) :
    ∃ p1 p2 d1 d2 : ℝ,
      get_pressure h1 = some p1 ∧ get_pressure h2 = some p2 ∧ p2 < p1 ∧
      get_density h1 = some d1 ∧ get_density h2 = some d2 ∧ d2 < d1 := by
  obtain ⟨l, hl1⟩ := get_level_isSome h1 (by linarith)
  have hl2 : get_level h2 = some l := by rw [← hsame]; exact hl1
  rcases get_level_inv h1 l hl1 with ⟨rfl, b1⟩ | ⟨rfl, b1, b1'⟩ | ⟨rfl, b1, b1'⟩ |
    ⟨rfl, b1, b1'⟩ | ⟨rfl, b1, b1'⟩ | ⟨rfl, b1, b1'⟩
  · rcases get_level_inv h2 0 hl2 with ⟨-, b2⟩ | ⟨hc, -, -⟩ | ⟨hc, -, -⟩ |
      ⟨hc, -, -⟩ | ⟨hc, -, -⟩ | ⟨hc, -, -⟩
    · refine ⟨_, _, _, _, get_pressure_eq0 h1 b1, get_pressure_eq0 h2 b2, ?_,
        get_density_eq0 h1 b1, get_density_eq0 h2 b2, ?_⟩
      · exact mul_lt_mul_of_pos_left
          (Real.rpow_lt_rpow (by ring_nf; nlinarith) (by ring_nf; nlinarith) (by norm_num)) (by norm_num)
      · exact mul_lt_mul_of_pos_left
          (Real.rpow_lt_rpow (by ring_nf; nlinarith) (by ring_nf; nlinarith) (by norm_num)) (by norm_num)
    · exact absurd hc (by norm_num)
    · exact absurd hc (by norm_num)
    · exact absurd hc (by norm_num)
    · exact absurd hc (by norm_num)
    · exact absurd hc (by norm_num)
  · rcases get_level_inv h2 1 hl2 with ⟨hc, -⟩ | ⟨-, b2, b2'⟩ | ⟨hc, -, -⟩ |
      ⟨hc, -, -⟩ | ⟨hc, -, -⟩ | ⟨hc, -, -⟩
    · exact absurd hc (by norm_num)
    · refine ⟨_, _, _, _, get_pressure_eq1 h1 b1 b1', get_pressure_eq1 h2 b2 b2', ?_,
        get_density_eq1 h1 b1 b1', get_density_eq1 h2 b2 b2', ?_⟩
      · exact mul_lt_mul_of_pos_left (Real.exp_lt_exp.2 (by ring_nf; nlinarith)) (by norm_num)
      · exact mul_lt_mul_of_pos_left (Real.exp_lt_exp.2 (by ring_nf; nlinarith)) (by norm_num)
    · exact absurd hc (by norm_num)
    · exact absurd hc (by norm_num)
    · exact absurd hc (by norm_num)
    · exact absurd hc (by norm_num)
  · rcases get_level_inv h2 2 hl2 with ⟨hc, -⟩ | ⟨hc, -, -⟩ | ⟨-, b2, b2'⟩ |
      ⟨hc, -, -⟩ | ⟨hc, -, -⟩ | ⟨hc, -, -⟩
    · exact absurd hc (by norm_num)
    · exact absurd hc (by norm_num)
    · refine ⟨_, _, _, _, get_pressure_eq2 h1 b1 b1', get_pressure_eq2 h2 b2 b2', ?_,
        get_density_eq2 h1 b1 b1', get_density_eq2 h2 b2 b2', ?_⟩
      · exact mul_lt_mul_of_pos_left
          (Real.rpow_lt_rpow_of_neg (by ring_nf; nlinarith) (by ring_nf; nlinarith)
            (by norm_num))
          (by norm_num)
      · exact mul_lt_mul_of_pos_left
          (Real.rpow_lt_rpow_of_neg (by ring_nf; nlinarith) (by ring_nf; nlinarith)
            (by norm_num))
          (by norm_num)
    · exact absurd hc (by norm_num)
    · exact absurd hc (by norm_num)
    · exact absurd hc (by norm_num)
  · rcases get_level_inv h2 3 hl2 with ⟨hc, -⟩ | ⟨hc, -, -⟩ | ⟨hc, -, -⟩ |
      ⟨-, b2, b2'⟩ | ⟨hc, -, -⟩ | ⟨hc, -, -⟩
    · exact absurd hc (by norm_num)
    · exact absurd hc (by norm_num)
    · exact absurd hc (by norm_num)
    · refine ⟨_, _, _, _, get_pressure_eq3 h1 b1 b1', get_pressure_eq3 h2 b2 b2', ?_,
        get_density_eq3 h1 b1 b1', get_density_eq3 h2 b2 b2', ?_⟩
      · exact mul_lt_mul_of_pos_left
          (Real.rpow_lt_rpow_of_neg (by ring_nf; nlinarith) (by ring_nf; nlinarith)
            (by norm_num))
          (by norm_num)
      · exact mul_lt_mul_of_pos_left
          (Real.rpow_lt_rpow_of_neg (by ring_nf; nlinarith) (by ring_nf; nlinarith)
            (by norm_num))
          (by norm_num)
    · exact absurd hc (by norm_num)
    · exact absurd hc (by norm_num)
  · rcases get_level_inv h2 4 hl2 with ⟨hc, -⟩ | ⟨hc, -, -⟩ | ⟨hc, -, -⟩ |
      ⟨hc, -, -⟩ | ⟨-, b2, b2'⟩ | ⟨hc, -, -⟩
    · exact absurd hc (by norm_num)
    · exact absurd hc (by norm_num)
    · exact absurd hc (by norm_num)
    · exact absurd hc (by norm_num)
    · refine ⟨_, _, _, _, get_pressure_eq4 h1 b1 b1', get_pressure_eq4 h2 b2 b2', ?_,
        get_density_eq4 h1 b1 b1', get_density_eq4 h2 b2 b2', ?_⟩
      · exact mul_lt_mul_of_pos_left (Real.exp_lt_exp.2 (by ring_nf; nlinarith)) (by norm_num)
      · exact mul_lt_mul_of_pos_left (Real.exp_lt_exp.2 (by ring_nf; nlinarith)) (by norm_num)
    · exact absurd hc (by norm_num)
  · rcases get_level_inv h2 5 hl2 with ⟨hc, -⟩ | ⟨hc, -, -⟩ | ⟨hc, -, -⟩ |
      ⟨hc, -, -⟩ | ⟨hc, -, -⟩ | ⟨-, b2, b2'⟩
    · exact absurd hc (by norm_num)
    · exact absurd hc (by norm_num)
    · exact absurd hc (by norm_num)
    · exact absurd hc (by norm_num)
    · exact absurd hc (by norm_num)
    · refine ⟨_, _, _, _, get_pressure_eq5 h1 b1 b1', get_pressure_eq5 h2 b2 b2', ?_,
        get_density_eq5 h1 b1 b1', get_density_eq5 h2 b2 b2', ?_⟩
      · exact mul_lt_mul_of_pos_left
          (Real.rpow_lt_rpow (by ring_nf; nlinarith) (by ring_nf; nlinarith) (by norm_num)) (by norm_num)
      · exact mul_lt_mul_of_pos_left
          (Real.rpow_lt_rpow (by ring_nf; nlinarith) (by ring_nf; nlinarith) (by norm_num)) (by norm_num)

/-- Claim C8 (amended), instantiated at 1000 m and 2000 m (both in the
troposphere). -/
theorem claim_C8_witness :
    (0 : ℝ) ≤ 1000 ∧ (1000 : ℝ) < 2000 ∧ (2000 : ℝ) < 71000 ∧
      get_level (1000 : ℝ) = get_level (2000 : ℝ) ∧
      ∃ p1 p2 d1 d2 : ℝ,
        get_pressure (1000 : ℝ) = some p1 ∧ get_pressure (2000 : ℝ) = some p2 ∧
        p2 < p1 ∧ get_density (1000 : ℝ) = some d1 ∧
        get_density (2000 : ℝ) = some d2 ∧ d2 < d1 :=
  ⟨by norm_num, by norm_num, by norm_num,
   by rw [get_level_eq0 1000 (by norm_num), get_level_eq0 2000 (by norm_num)],
   claim_C8_amended 1000 2000 (by norm_num) (by norm_num) (by norm_num)
     (by rw [get_level_eq0 1000 (by norm_num), get_level_eq0 2000 (by norm_num)])⟩

end AtmosphereISA

end
